import Mathlib

/-!
Verification of the kinfer-kbot control core against its specification.

The Rust sources are shallowly embedded: 32- and 64-bit floats are modelled
as exact rationals, fallible operations return `Except String`, hardware
collaborators (actuator bus, IMU, keyboard state) are passed in as explicit
oracles, and observable device traffic is recorded in an event trace.
-/

set_option autoImplicit false

namespace KBot

/-- Rational stand-in for the float value of pi used by the float
`to_radians` and `to_degrees` conversions in the source. -/
def piApprox : ℚ := 3.14159265358979

/-- Model of float `to_radians` (degrees times pi over 180). -/
def toRadians (deg : ℚ) : ℚ := deg * piApprox / 180

/-- Model of float `to_degrees` (radians times 180 over pi). -/
def toDegrees (rad : ℚ) : ℚ := rad * 180 / piApprox

/-- `ActuatorCommand` from actuators.rs: target for one actuator. -/
structure ActuatorCommand where
  actuator_id : Nat
  position : Option ℚ
  velocity : Option ℚ
  torque : Option ℚ
  deriving Repr, DecidableEq

/-- `ActionResult` from actuators.rs: per-actuator outcome of one batch. -/
structure ActionResult where
  actuator_id : Nat
  success : Bool
  error : Option String
  deriving Repr, DecidableEq

/-- `ActuatorState` from actuators.rs: one feedback snapshot entry. -/
structure ActuatorState where
  actuator_id : Nat
  position : Option ℚ
  velocity : Option ℚ
  torque : Option ℚ
  temperature : Option ℚ
  online : Bool
  deriving Repr, DecidableEq

/-- `ACTUATOR_NAME_TO_ID` from constants.rs: the static joint-name table. -/
def ACTUATOR_NAME_TO_ID : List (String × Nat) := [
  ("dof_left_shoulder_pitch_03", 11),
  ("dof_left_shoulder_roll_03", 12),
  ("dof_left_shoulder_yaw_02", 13),
  ("dof_left_elbow_02", 14),
  ("dof_left_wrist_00", 15),
  ("dof_right_shoulder_pitch_03", 21),
  ("dof_right_shoulder_roll_03", 22),
  ("dof_right_shoulder_yaw_02", 23),
  ("dof_right_elbow_02", 24),
  ("dof_right_wrist_00", 25),
  ("dof_left_hip_pitch_04", 31),
  ("dof_left_hip_roll_03", 32),
  ("dof_left_hip_yaw_03", 33),
  ("dof_left_knee_04", 34),
  ("dof_left_ankle_02", 35),
  ("dof_right_hip_pitch_04", 41),
  ("dof_right_hip_roll_03", 42),
  ("dof_right_hip_yaw_03", 43),
  ("dof_right_knee_04", 44),
  ("dof_right_ankle_02", 45)]

/-- `HOME_POSITION` from constants.rs: static per-actuator home angles, in
radians (the source writes degree literals converted with `to_radians`). -/
def HOME_POSITION : List (Nat × ℚ) := [
  (21, 0),
  (22, toRadians (-10)),
  (23, 0),
  (24, toRadians 90),
  (25, 0),
  (11, 0),
  (12, toRadians 10),
  (13, 0),
  (14, toRadians (-90)),
  (15, 0),
  (41, toRadians (-20)),
  (42, toRadians (-0)),
  (43, 0),
  (44, toRadians (-50)),
  (45, toRadians 30),
  (31, toRadians 20),
  (32, toRadians 0),
  (33, 0),
  (34, toRadians 50),
  (35, toRadians (-30))]

/-- Forward lookup over the static table, as written in provider.rs
(`find` over the table comparing names, then projecting the id). -/
def nameToId (name : String) : Option Nat :=
  (ACTUATOR_NAME_TO_ID.find? (fun p => p.1 == name)).map (fun p => p.2)

/-- Reverse lookup over the same static table (used to state the
round-trip property of the specification). -/
def idToName (id : Nat) : Option String :=
  (ACTUATOR_NAME_TO_ID.find? (fun p => p.2 == id)).map (fun p => p.1)

/-- Outcome oracle for the external `supervisor.command` call of the
robstride crate: given motor id (a u8), position, velocity and torque, it
returns `some msg` on failure and `none` on success. -/
def CommandDevice : Type := Nat → ℚ → ℚ → ℚ → Option String

/-- One iteration of the loop body of `Actuator::command_actuators` in
actuators.rs: the u32 actuator id is truncated to u8, absent position and
velocity default to zero, position and velocity are converted with
`to_radians`, and the per-actuator result records the command id, whether
the supervisor call succeeded, and its error if any. -/
def commandOne (dev : CommandDevice) (c : ActuatorCommand) : ActionResult :=
  let r := dev (c.actuator_id % 256)
    ((c.position.map toRadians).getD 0)
    ((c.velocity.map toRadians).getD 0)
    (c.torque.getD 0)
  { actuator_id := c.actuator_id, success := r.isNone, error := r }

/-- `Actuator::command_actuators` from actuators.rs: issues every command
in order, pushing one result per command; it never aborts early. -/
def command_actuators (dev : CommandDevice) : List ActuatorCommand → List ActionResult
  | [] => []
  | c :: rest => commandOne dev c :: command_actuators dev rest

/-- Feedback returned by the external supervisor for one motor; `fresh`
models whether its timestamp is less than one second old. -/
structure Feedback where
  angle : ℚ
  velocity : ℚ
  torque : ℚ
  temperature : ℚ
  fresh : Bool
  deriving Repr, DecidableEq

/-- Oracle for the external `supervisor.get_feedback` call; `none` models
both an error and an absent feedback entry, which the source treats
identically (`if let Ok(Some(..))`). -/
def FeedbackOracle : Type := Nat → Option Feedback

/-- The `ActuatorState` built by `Actuator::get_actuators_state` from one
feedback entry: angle and velocity are converted with `to_degrees` and
every optional field is populated. -/
def stateOfFeedback (id : Nat) (f : Feedback) : ActuatorState :=
  { actuator_id := id,
    position := some (toDegrees f.angle),
    velocity := some (toDegrees f.velocity),
    torque := some f.torque,
    temperature := some f.temperature,
    online := f.fresh }

/-- `Actuator::get_actuators_state` from actuators.rs: for each requested
id (truncated to u8), pushes a state entry when feedback is available and
silently skips the id otherwise. -/
def get_actuators_state (fb : FeedbackOracle) : List Nat → List ActuatorState
  | [] => []
  | id :: rest =>
    match fb (id % 256) with
    | some f => stateOfFeedback id f :: get_actuators_state fb rest
    | none => get_actuators_state fb rest

/-- Device oracle in which actuator 2 fails with a bus error and every
other actuator succeeds. -/
def failOnTwo : CommandDevice := fun id _ _ _ =>
  bif id == 2 then some "bus error" else none

/-- A three-command batch addressed to actuators 1, 2 and 3. -/
def batchOfThree : List ActuatorCommand :=
  [{ actuator_id := 1, position := some 1, velocity := none, torque := none },
   { actuator_id := 2, position := some 2, velocity := none, torque := none },
   { actuator_id := 3, position := some 3, velocity := none, torque := none }]

/-- Claim C5: `command_actuators` returns exactly one result per command,
in command order, each carrying the id of its own command and depending
only on its own command, so one failure never blocks the rest of the
batch; in particular the three-command batch in which actuator 2 fails
yields three results with only the second marked failed. -/
theorem command_actuators_per_command_isolation :
    (∀ (dev : CommandDevice) (cmds : List ActuatorCommand),
      command_actuators dev cmds = cmds.map (commandOne dev)) ∧
    (∀ (dev : CommandDevice) (c : ActuatorCommand),
      (commandOne dev c).actuator_id = c.actuator_id) ∧
    command_actuators failOnTwo batchOfThree =
      [{ actuator_id := 1, success := true, error := none },
       { actuator_id := 2, success := false, error := some "bus error" },
       { actuator_id := 3, success := true, error := none }] := by
  refine ⟨fun dev cmds => ?_, fun dev c => rfl, by decide⟩
  induction cmds with
  | nil => rfl
  | cons c rest ih => simp [command_actuators, ih]

/-- Orientation quaternion of the IMU sample (fields as read by
`get_quat_from_values` in provider.rs). -/
structure Quat where
  w : ℚ
  x : ℚ
  y : ℚ
  z : ℚ
  deriving Repr, DecidableEq

/-- `IMUData` as consumed by provider.rs: one atomic IMU sample. -/
structure IMUData where
  accel_x : ℚ
  accel_y : ℚ
  accel_z : ℚ
  gyro_x : ℚ
  gyro_y : ℚ
  gyro_z : ℚ
  quat : Quat
  deriving Repr, DecidableEq

/-- The eight atomically stored teleoperation scalars of keyboard.rs, in
the order of the static atomics. -/
structure KeyboardState where
  command_x : ℚ
  command_y : ℚ
  command_yaw_rate : ℚ
  command_yaw : ℚ
  command_height : ℚ
  command_roll : ℚ
  command_pitch : ℚ
  keyframe_index : ℚ
  deriving Repr, DecidableEq

/-- `keyboard::get_commands` from keyboard.rs: snapshot of the eight
teleoperation scalars as an array. -/
def get_commands (k : KeyboardState) : List ℚ :=
  [k.command_x, k.command_y, k.command_yaw_rate, k.command_yaw,
   k.command_height, k.command_roll, k.command_pitch, k.keyframe_index]

/-- The `ModelMetadata` fields used by provider.rs. -/
structure ModelMetadata where
  joint_names : List String
  num_commands : Option Nat
  deriving Repr, DecidableEq

/-- The requested input kinds of the kinfer `InputType` enum. -/
inductive InputType where
  | JointAngles
  | JointAngularVelocities
  | Accelerometer
  | InitialHeading
  | Quaternion
  | Gyroscope
  | ProjectedGravity
  | Time
  | Command
  | Carry
  deriving Repr, DecidableEq

/-- Observable device traffic of the provider: an actuator-state batch
read, an IMU sample read, or a dispatched actuator command batch. -/
inductive Event where
  | actuatorRead (ids : List Nat)
  | imuRead
  | commandBatch (cmds : List ActuatorCommand)
  deriving Repr, DecidableEq

def Event.isActuatorRead : Event → Bool
  | .actuatorRead _ => true
  | _ => false

def Event.isImuRead : Event → Bool
  | .imuRead => true
  | _ => false

def Event.isCommandBatch : Event → Bool
  | .commandBatch _ => true
  | _ => false

/-- Hardware and process context of `KBotProvider`: feedback oracle of the
actuator bus, the current IMU sample, the keyboard atomics, elapsed time
since start, the heading captured at construction, and the quaternion
vector rotation of the external imu crate (`Quaternion::rotate_vector`). -/
structure ProviderEnv where
  fb : FeedbackOracle
  imu : IMUData
  keyboard : KeyboardState
  elapsed : ℚ
  initial_heading : ℚ
  rotateVec : Quat → ℚ × ℚ × ℚ → Bool → ℚ × ℚ × ℚ

/-- `KBotProvider::get_actuator_ids` from provider.rs: resolves each joint
name through the static table, failing on the first unmapped name. -/
def get_actuator_ids : List String → Except String (List Nat)
  | [] => .ok []
  | name :: rest =>
    match nameToId name with
    | some id => (get_actuator_ids rest).map (fun ids => id :: ids)
    | none => .error ("Joint name not found: " ++ name)

/-- The joint-name fallback used in the error messages of provider.rs
(`joint_names.get(idx).map_or_else(..)`). -/
def jointNameForError (joint_names : List String) (idx : Nat) : String :=
  match joint_names.get? idx with
  | some s => s
  | none => "<unknown joint at index " ++ toString idx ++ ">"

/-- The per-field error text of `get_joint_angles_from_state`. -/
def positionErrorMsg (id : Nat) (name : String) : String :=
  "Position not available for joint ID " ++ toString id ++ " (name: " ++ name ++ ")"

/-- The per-field error text of `get_joint_angular_velocities_from_state`. -/
def velocityErrorMsg (id : Nat) (name : String) : String :=
  "Velocity data not available (is None) for joint ID " ++ toString id ++
    " (name: " ++ name ++ ")"

/-- The enumerated collection loop of `get_joint_angles_from_state`:
every position must be present, otherwise the first absent position
produces an error naming the affected joint. -/
def jointAnglesLoop (joint_names : List String) : Nat → List ActuatorState → Except String (List ℚ)
  | _, [] => .ok []
  | idx, s :: rest =>
    match s.position with
    | some p => (jointAnglesLoop joint_names (idx + 1) rest).map (fun ps => p :: ps)
    | none => .error (positionErrorMsg s.actuator_id (jointNameForError joint_names idx))

/-- `KBotProvider::get_joint_angles_from_state` from provider.rs; the
final length check models `Array::from_shape_vec` with the joint-name
count as the declared shape. -/
def get_joint_angles_from_state (joint_names : List String)
    (actuator_state : List ActuatorState) : Except String (List ℚ) :=
  match jointAnglesLoop joint_names 0 actuator_state with
  | .error e => .error e
  | .ok angles =>
    if angles.length = joint_names.length then .ok angles
    else .error "Array shape error: joint count does not match joint name count"

/-- The enumerated collection loop of
`get_joint_angular_velocities_from_state`. -/
def jointVelocitiesLoop (joint_names : List String) : Nat → List ActuatorState → Except String (List ℚ)
  | _, [] => .ok []
  | idx, s :: rest =>
    match s.velocity with
    | some v => (jointVelocitiesLoop joint_names (idx + 1) rest).map (fun vs => v :: vs)
    | none => .error (velocityErrorMsg s.actuator_id (jointNameForError joint_names idx))

/-- `KBotProvider::get_joint_angular_velocities_from_state` from
provider.rs. -/
def get_joint_angular_velocities_from_state (joint_names : List String)
    (actuator_state : List ActuatorState) : Except String (List ℚ) :=
  match jointVelocitiesLoop joint_names 0 actuator_state with
  | .error e => .error e
  | .ok vels =>
    if vels.length = joint_names.length then .ok vels
    else .error "Array shape error: joint count does not match joint name count"

/-- `KBotProvider::get_command_internal` from provider.rs: the Command
input vector together with the number of `keyboard::get_commands` reads it
performed.  Widths 3, 6 and 7 are populated from the teleoperation
snapshot (width 6 skips the yaw rate at index 2); every other width,
including a missing `num_commands` treated as 0, yields a zero vector
without reading the keyboard state. -/
def get_command_internal (meta : ModelMetadata) (k : KeyboardState) :
    Except String (List ℚ) × Nat :=
  let num_commands := meta.num_commands.getD 0
  match num_commands with
  | 3 =>
    let commands := get_commands k
    (.ok [commands.getD 0 0, commands.getD 1 0, commands.getD 2 0], 1)
  | 6 =>
    let commands := get_commands k
    (.ok [commands.getD 0 0, commands.getD 1 0, commands.getD 3 0,
          commands.getD 4 0, commands.getD 5 0, commands.getD 6 0], 1)
  | 7 =>
    let commands := get_commands k
    (.ok [commands.getD 0 0, commands.getD 1 0, commands.getD 2 0,
          commands.getD 3 0, commands.getD 4 0, commands.getD 5 0,
          commands.getD 6 0], 1)
  | n => (.ok (List.replicate n 0), 0)

/-- One arm of the population loop of `get_inputs`: derives a single
requested field from the snapshot already read. -/
def getInputOne (env : ProviderEnv) (meta : ModelMetadata)
    (act_state : List ActuatorState) : InputType → Except String (List ℚ)
  | .JointAngles => get_joint_angles_from_state meta.joint_names act_state
  | .JointAngularVelocities =>
    get_joint_angular_velocities_from_state meta.joint_names act_state
  | .Accelerometer => .ok [env.imu.accel_x, env.imu.accel_y, env.imu.accel_z]
  | .InitialHeading => .ok [env.initial_heading]
  | .Quaternion => .ok [env.imu.quat.w, env.imu.quat.x, env.imu.quat.y, env.imu.quat.z]
  | .Gyroscope => .ok [env.imu.gyro_x, env.imu.gyro_y, env.imu.gyro_z]
  | .ProjectedGravity =>
    let g := env.rotateVec env.imu.quat (0, 0, -9.81) true
    .ok [g.1, g.2.1, g.2.2]
  | .Time => .ok [env.elapsed]
  | .Command => (get_command_internal meta env.keyboard).1
  | .Carry => .error "Carry should come via step()"

/-- The population loop of `get_inputs`: one entry per requested type, in
request order, aborting on the first failing field.  The Rust HashMap is
modelled as an insertion-ordered association list; the claims do not
depend on duplicate requested types. -/
def populateLoop (f : InputType → Except String (List ℚ)) :
    List InputType → Except String (List (InputType × List ℚ))
  | [] => .ok []
  | t :: ts =>
    match f t with
    | .error e => .error e
    | .ok v => (populateLoop f ts).map (fun out => (t, v) :: out)

/-- `KBotProvider::get_inputs` from provider.rs, with its device-read
trace.  The id resolution is pure and gates the single actuator-state
batch read; the single IMU read is issued concurrently by `try_join`.  On
a resolution failure the actuator read is never issued (the concurrently
launched IMU read is kept in the trace; the claims only constrain the
success path). -/
def getInputs (env : ProviderEnv) (input_types : List InputType)
    (meta : ModelMetadata) :
    Except String (List (InputType × List ℚ)) × List Event :=
  match get_actuator_ids meta.joint_names with
  | .error e => (.error e, [Event.imuRead])
  | .ok actuator_ids =>
    let act_state := get_actuators_state env.fb actuator_ids
    (populateLoop (getInputOne env meta act_state) input_types,
     [Event.actuatorRead actuator_ids, Event.imuRead])

/-- The command-building loop of `KBotProvider::take_action`: zips joint
names with action values, resolving each name through the static table
and failing on the first unmapped name. -/
def buildCommands : List String → List ℚ → Except String (List ActuatorCommand)
  | [], _ => .ok []
  | _ :: _, [] => .ok []
  | name :: ns, a :: vs =>
    match nameToId name with
    | some id =>
      (buildCommands ns vs).map (fun cmds =>
        ({ actuator_id := id, position := some a,
           velocity := none, torque := none } : ActuatorCommand) :: cmds)
    | none => .error ("Joint name not found in ACTUATOR_NAME_TO_ID: " ++ name)

/-- `KBotProvider::take_action` from provider.rs with its dispatch trace;
`none` models the panic of the length assertion.  The batch results of
`command_actuators` are discarded by the source (it always returns Ok). -/
def take_action (dev : CommandDevice) (joint_names : List String)
    (action : List ℚ) : Option (Except String Unit × List Event) :=
  if joint_names.length = action.length then
    some (match buildCommands joint_names action with
      | .error e => (.error e, [])
      | .ok cmds =>
        let _results := command_actuators dev cmds
        (.ok (), [Event.commandBatch cmds]))
  else none

/-- The command batch built by `KBotProvider::move_to_home`: one
position-mode command per entry of the static `HOME_POSITION` table. -/
def homeCommands : List ActuatorCommand :=
  HOME_POSITION.map (fun p =>
    { actuator_id := p.1, position := some p.2, velocity := none, torque := none })

/-- `KBotProvider::move_to_home` from provider.rs with its trace: it
builds the `HOME_POSITION` batch, dispatches it once through
`command_actuators` (whose per-actuator results are discarded and whose
outer result is always Ok), and returns. -/
def move_to_home (dev : CommandDevice) : Except String Unit × List Event :=
  let _results := command_actuators dev homeCommands
  (.ok (), [Event.commandBatch homeCommands])

/-- The per-state position extraction of the initial-baseline capture in
`ModelRuntime::start` (runtime.rs): `state.position.unwrap_or(0.0)`. -/
def initialJointPositions (actuator_states : List ActuatorState) : List ℚ :=
  actuator_states.map (fun s => s.position.getD 0)

/-- The full initial-baseline capture of `ModelRuntime::start`: read the
state of every actuator of the static table once, then extract the
positions. -/
def initialBaseline (fb : FeedbackOracle) : List ℚ :=
  initialJointPositions
    (get_actuators_state fb (ACTUATOR_NAME_TO_ID.map (fun p => p.2)))

/-- Elementwise linear interpolation of the main loop of runtime.rs:
`prev * (1 - t) + output * t` (ndarray elementwise arithmetic; both
arrays have the same length in the loop). -/
def interpolate (t : ℚ) (prev output : List ℚ) : List ℚ :=
  List.zipWith (fun p o => p * (1 - t) + o * t) prev output

/-- The sub-step loop `for i in 1..(slowdown_factor + 1)` of the main
control loop of runtime.rs: the i-th dispatched command (i from 1 to the
slowdown factor) is the interpolation at t = i / slowdown_factor, scaled
elementwise by the magnitude factor. -/
def subSteps (slowdown_factor : ℕ) (magnitude_factor : ℚ)
    (prev output : List ℚ) : List (List ℚ) :=
  (List.range slowdown_factor).map (fun (j : ℕ) =>
    let t : ℚ := ((j : ℚ) + 1) / (slowdown_factor : ℚ)
    (interpolate t prev output).map (fun v => v * magnitude_factor))

/-- Outcome of one tick of the main control loop: the dispatched command
sequence and the interpolation baseline carried into the next tick. -/
structure TickResult where
  dispatched : List (List ℚ)
  nextBaseline : List ℚ
  deriving Repr, DecidableEq

/-- One tick of the main control loop of runtime.rs: dispatch the
sub-step commands, then set the next baseline to the raw policy output
(`joint_positions = output`), not the magnitude-scaled command. -/
def runTick (slowdown_factor : ℕ) (magnitude_factor : ℚ)
    (prev output : List ℚ) : TickResult :=
  { dispatched := subSteps slowdown_factor magnitude_factor prev output,
    nextBaseline := output }

/-- The configurable state of `ModelRuntime` (runtime.rs). -/
structure RuntimeConfig where
  dt : ℕ
  slowdown_factor : ℤ
  magnitude_factor : ℚ
  deriving Repr, DecidableEq

/-- `TRIGGER_READ_BEFORE` of runtime.rs, in milliseconds. -/
def TRIGGER_READ_BEFORE_MS : ℕ := 2

/-- `ModelRuntime::new`: asserts that the tick period dt (ms) exceeds the
bus-latency offset; `none` models the panic of a failed assertion.  The
slowdown and magnitude factors start at 1. -/
def modelRuntimeNew (dt : ℕ) : Option RuntimeConfig :=
  if TRIGGER_READ_BEFORE_MS < dt then
    some { dt := dt, slowdown_factor := 1, magnitude_factor := 1 }
  else none

/-- `ModelRuntime::set_slowdown_factor`: asserts the factor is at least
one; `none` models the panic. -/
def set_slowdown_factor (c : RuntimeConfig) (slowdown_factor : ℤ) :
    Option RuntimeConfig :=
  if 1 ≤ slowdown_factor then some { c with slowdown_factor := slowdown_factor }
  else none

/-- `ModelRuntime::set_magnitude_factor`: asserts the factor lies in
[0, 1]; `none` models the panic. -/
def set_magnitude_factor (c : RuntimeConfig) (magnitude_factor : ℚ) :
    Option RuntimeConfig :=
  if 0 ≤ magnitude_factor ∧ magnitude_factor ≤ 1 then
    some { c with magnitude_factor := magnitude_factor }
  else none

/-- The runtime configurations reachable through construction and the two
setters, each of which can panic (modelled by `none`). -/
inductive Configured : RuntimeConfig → Prop where
  | new : ∀ dt c, modelRuntimeNew dt = some c → Configured c
  | slowdown : ∀ c s c2, Configured c → set_slowdown_factor c s = some c2 → Configured c2
  | magnitude : ∀ c m c2, Configured c → set_magnitude_factor c m = some c2 → Configured c2

/-- Claim C8: for every entry of the static `ACTUATOR_NAME_TO_ID` table,
name-to-id followed by id-to-name returns the original name; the names are
pairwise distinct, the ids are pairwise distinct, and there are exactly 20
entries, so the table is a bijection between the 20 names and the 20 ids. -/
theorem actuator_table_roundtrip_bijection :
    (ACTUATOR_NAME_TO_ID.all
      (fun p => (nameToId p.1 == some p.2) && (idToName p.2 == some p.1))) = true ∧
    (ACTUATOR_NAME_TO_ID.map (fun p => p.1)).Nodup ∧
    (ACTUATOR_NAME_TO_ID.map (fun p => p.2)).Nodup ∧
    ACTUATOR_NAME_TO_ID.length = 20 := by
  refine ⟨by decide, by decide, by decide, by decide⟩

/-- Claim C9: the configuration invariants are enforced by assertions
(modelled as `none`): construction with a tick period dt (ms) not
exceeding the 2 ms bus-latency offset panics, setting a slowdown factor
below 1 panics, setting a magnitude factor outside [0, 1] panics, and
every configuration reachable through construction and the setters
satisfies slowdown_factor at least 1, magnitude_factor in [0, 1], and dt
above the bus-latency offset. -/
theorem runtime_config_invariants :
    (∀ dt : ℕ, dt ≤ TRIGGER_READ_BEFORE_MS → modelRuntimeNew dt = none) ∧
    (∀ (c : RuntimeConfig) (s : ℤ), s < 1 → set_slowdown_factor c s = none) ∧
    (∀ (c : RuntimeConfig) (m : ℚ), m < 0 ∨ 1 < m → set_magnitude_factor c m = none) ∧
    (∀ c : RuntimeConfig, Configured c →
      1 ≤ c.slowdown_factor ∧ 0 ≤ c.magnitude_factor ∧ c.magnitude_factor ≤ 1 ∧
        TRIGGER_READ_BEFORE_MS < c.dt) := by
  refine ⟨?_, ?_, ?_, ?_⟩
  · intro dt h
    rw [modelRuntimeNew, if_neg (by omega)]
  · intro c s h
    rw [set_slowdown_factor, if_neg (by omega)]
  · intro c m h
    rw [set_magnitude_factor, if_neg]
    rintro ⟨h0, h1⟩
    rcases h with h | h <;> linarith
  · intro c hc
    induction hc with
    | new dt c h =>
      rw [modelRuntimeNew] at h
      split at h
      · cases h
        refine ⟨le_refl 1, by norm_num, le_refl 1, by assumption⟩
      · cases h
    | slowdown c s c2 _ h ih =>
      rw [set_slowdown_factor] at h
      split at h
      · cases h
        exact ⟨by assumption, ih.2.1, ih.2.2.1, ih.2.2.2⟩
      · cases h
    | magnitude c m c2 _ h ih =>
      rw [set_magnitude_factor] at h
      split at h
      · cases h
        rename_i hm
        exact ⟨ih.1, hm.1, hm.2, ih.2.2.2⟩
      · cases h

/-- Concrete check of `runtime_config_invariants`: a 2 ms tick period is
rejected, slowdown 0 and magnitude 2 are rejected, and the freshly
constructed 20 ms runtime satisfies every invariant. -/
theorem runtime_config_invariants_witness :
    modelRuntimeNew 2 = none ∧
    set_slowdown_factor { dt := 20, slowdown_factor := 1, magnitude_factor := 1 } 0 = none ∧
    set_magnitude_factor { dt := 20, slowdown_factor := 1, magnitude_factor := 1 } 2 = none ∧
    (1 ≤ ({ dt := 20, slowdown_factor := 1, magnitude_factor := 1 } : RuntimeConfig).slowdown_factor ∧
     0 ≤ ({ dt := 20, slowdown_factor := 1, magnitude_factor := 1 } : RuntimeConfig).magnitude_factor ∧
     ({ dt := 20, slowdown_factor := 1, magnitude_factor := 1 } : RuntimeConfig).magnitude_factor ≤ 1 ∧
     TRIGGER_READ_BEFORE_MS < ({ dt := 20, slowdown_factor := 1, magnitude_factor := 1 } : RuntimeConfig).dt) :=
  ⟨runtime_config_invariants.1 2 (by decide),
   runtime_config_invariants.2.1 _ 0 (by decide),
   runtime_config_invariants.2.2.1 _ 2 (Or.inr (by norm_num)),
   runtime_config_invariants.2.2.2 _ (Configured.new 20 _ rfl)⟩

/-- Claim C2: in one tick with slowdown factor n at least 1, previous
baseline prev, raw policy output target and magnitude factor m, the loop
dispatches exactly n commands, the (i+1)-th being the elementwise
interpolation at t = (i+1)/n scaled by m, and the baseline carried to the
next tick is the raw output, not the scaled command; with n = 4,
prev = [0], target = [1], m = 1 the dispatched commands are
[0.25, 0.5, 0.75, 1.0]. -/
theorem tick_interpolation_dispatch :
    (∀ (n : ℕ) (m : ℚ) (prev output : List ℚ), 1 ≤ n →
      (runTick n m prev output).dispatched.length = n ∧
      (∀ i : ℕ, i < n →
        (runTick n m prev output).dispatched[i]? =
          some ((interpolate (((i : ℚ) + 1) / (n : ℚ)) prev output).map
            (fun v => v * m))) ∧
      (runTick n m prev output).nextBaseline = output) ∧
    runTick 4 1 [0] [1] =
      { dispatched := [[1/4], [1/2], [3/4], [1]], nextBaseline := [1] } := by
  refine ⟨fun n m prev output _ => ⟨?_, fun i hi => ?_, rfl⟩, ?_⟩
  · have h1 : (runTick n m prev output).dispatched =
        (List.range n).map (fun (j : ℕ) =>
          (interpolate (((j : ℚ) + 1) / (n : ℚ)) prev output).map
            (fun v => v * m)) := rfl
    rw [h1, List.length_map, List.length_range]
  · have h1 : (runTick n m prev output).dispatched =
        (List.range n).map (fun (j : ℕ) =>
          (interpolate (((j : ℚ) + 1) / (n : ℚ)) prev output).map
            (fun v => v * m)) := rfl
    rw [h1, List.getElem?_map, List.getElem?_range hi, Option.map_some']
  · simp only [runTick, subSteps, interpolate, List.range_succ, List.range_zero,
      List.nil_append, List.cons_append, List.map_cons, List.map_nil,
      List.zipWith_cons_cons, List.zipWith_nil_right, TickResult.mk.injEq]
    norm_num

/-- Concrete check of `tick_interpolation_dispatch`: the four-sub-step
tick on prev = [0], target = [1] dispatches [1/2] as its second command
and carries [1] forward. -/
theorem tick_interpolation_dispatch_witness :
    (runTick 4 1 [(0 : ℚ)] [1]).dispatched.length = 4 ∧
    (runTick 4 1 [(0 : ℚ)] [1]).dispatched.get? 1 =
      some ((interpolate (((1 : ℚ) + 1) / (4 : ℚ)) [0] [1]).map (fun v => v * 1)) ∧
    (runTick 4 1 [(0 : ℚ)] [1]).nextBaseline = [1] :=
  ⟨(tick_interpolation_dispatch.1 4 1 [0] [1] (by decide)).1,
   (tick_interpolation_dispatch.1 4 1 [0] [1] (by decide)).2.1 1 (by decide),
   (tick_interpolation_dispatch.1 4 1 [0] [1] (by decide)).2.2⟩

/-- Claim C10: a declared command width other than 3, 6 or 7 (including
width 8 and a missing width treated as 0) yields an all-zero Command
vector of that width with no read of the teleoperation state, while
widths 3, 6 and 7 are populated from the teleoperation snapshot, width 6
omitting the yaw-rate field. -/
theorem command_width_dispatch :
    (∀ (meta : ModelMetadata) (k : KeyboardState),
      meta.num_commands.getD 0 ∉ ([3, 6, 7] : List ℕ) →
      get_command_internal meta k =
        (.ok (List.replicate (meta.num_commands.getD 0) 0), 0)) ∧
    (∀ (meta : ModelMetadata) (k : KeyboardState), meta.num_commands = some 3 →
      get_command_internal meta k =
        (.ok [k.command_x, k.command_y, k.command_yaw_rate], 1)) ∧
    (∀ (meta : ModelMetadata) (k : KeyboardState), meta.num_commands = some 6 →
      get_command_internal meta k =
        (.ok [k.command_x, k.command_y, k.command_yaw, k.command_height,
              k.command_roll, k.command_pitch], 1)) ∧
    (∀ (meta : ModelMetadata) (k : KeyboardState), meta.num_commands = some 7 →
      get_command_internal meta k =
        (.ok [k.command_x, k.command_y, k.command_yaw_rate, k.command_yaw,
              k.command_height, k.command_roll, k.command_pitch], 1)) := by
  refine ⟨?_, ?_, ?_, ?_⟩
  · intro meta k h
    simp only [get_command_internal]
    generalize meta.num_commands.getD 0 = n at h ⊢
    rcases n with _ | _ | _ | _ | _ | _ | _ | _ | n
    · rfl
    · rfl
    · rfl
    · simp at h
    · rfl
    · rfl
    · simp at h
    · simp at h
    · rfl
  · intro meta k h
    simp [get_command_internal, h, get_commands]
  · intro meta k h
    simp [get_command_internal, h, get_commands]
  · intro meta k h
    simp [get_command_internal, h, get_commands]

/-- Distinct teleoperation scalars used to check the Command orderings. -/
def kTest : KeyboardState :=
  { command_x := 1, command_y := 2, command_yaw_rate := 3, command_yaw := 4,
    command_height := 5, command_roll := 6, command_pitch := 7, keyframe_index := 8 }

/-- Concrete check of `command_width_dispatch`: width 8 and a missing
width yield zero vectors without a keyboard read; widths 3, 6 and 7 are
populated from the snapshot with width 6 skipping the yaw rate. -/
theorem command_width_dispatch_witness :
    get_command_internal { joint_names := [], num_commands := some 8 } kTest =
      (.ok (List.replicate 8 0), 0) ∧
    get_command_internal { joint_names := [], num_commands := none } kTest =
      (.ok (List.replicate 0 0), 0) ∧
    get_command_internal { joint_names := [], num_commands := some 3 } kTest =
      (.ok [kTest.command_x, kTest.command_y, kTest.command_yaw_rate], 1) ∧
    get_command_internal { joint_names := [], num_commands := some 6 } kTest =
      (.ok [kTest.command_x, kTest.command_y, kTest.command_yaw, kTest.command_height,
            kTest.command_roll, kTest.command_pitch], 1) ∧
    get_command_internal { joint_names := [], num_commands := some 7 } kTest =
      (.ok [kTest.command_x, kTest.command_y, kTest.command_yaw_rate, kTest.command_yaw,
            kTest.command_height, kTest.command_roll, kTest.command_pitch], 1) :=
  ⟨command_width_dispatch.1 _ kTest (by decide),
   command_width_dispatch.1 _ kTest (by decide),
   command_width_dispatch.2.1 _ kTest rfl,
   command_width_dispatch.2.2.1 _ kTest rfl,
   command_width_dispatch.2.2.2 _ kTest rfl⟩

/-- Claim C1 counterexample: `move_to_home` is not an iterative
proportional controller.  Its device trace contains no state read at all
(the claim requires it to repeatedly read the state of every
home-configured joint before returning), it issues exactly one command
batch, and that batch carries the raw home target of actuator 24 — the
90-degree elbow angle, about 1.5708 rad — which exceeds both the claimed
per-iteration step clamp of about 4 degrees and the claimed 0.1 rad
convergence threshold, with no feedback consulted. -/
theorem move_to_home_counterexample :
    (move_to_home (fun _ _ _ _ => none)).2.countP Event.isActuatorRead = 0 ∧
    (move_to_home (fun _ _ _ _ => none)).2 = [Event.commandBatch homeCommands] ∧
    homeCommands[3]? = some { actuator_id := 24, position := some (toRadians 90),
                              velocity := none, torque := none } ∧
    toRadians 4 < toRadians 90 ∧ (1 / 10 : ℚ) < toRadians 90 := by
  refine ⟨rfl, rfl, rfl, ?_, ?_⟩ <;> norm_num [toRadians, piApprox]

/-- Claim C1 amended: `move_to_home` dispatches exactly one batch,
holding one position-mode command per entry of the static
`HOME_POSITION` table in table order with the raw table angle as target
and velocity and torque unset; it reads no actuator state, applies no
step clamping and no convergence check, and returns Ok immediately after
that single dispatch whatever the per-actuator outcomes are. -/
theorem move_to_home_single_batch :
    ∀ dev : CommandDevice,
      move_to_home dev =
        (Except.ok (),
         [Event.commandBatch (HOME_POSITION.map (fun p =>
            ({ actuator_id := p.1, position := some p.2,
               velocity := none, torque := none } : ActuatorCommand)))]) :=
  fun _ => rfl

/-- Helper: when every state of the snapshot carries a position, the
initial-baseline extraction returns exactly the read positions. -/
theorem initialJointPositions_of_isSome :
    ∀ states : List ActuatorState, (∀ s ∈ states, s.position.isSome) →
      (initialJointPositions states).map some = states.map (fun s => s.position) := by
  intro states h
  rw [initialJointPositions, List.map_map]
  refine List.map_congr_left (fun s hs => ?_)
  rcases Option.isSome_iff_exists.mp (h s hs) with ⟨p, hp⟩
  simp [Function.comp, hp]

/-- Helper: every state returned by `get_actuators_state` carries a
position (the source populates every optional field from feedback). -/
theorem get_actuators_state_position_isSome :
    ∀ (fb : FeedbackOracle) (ids : List Nat) (s : ActuatorState),
      s ∈ get_actuators_state fb ids → s.position.isSome := by
  intro fb ids
  induction ids with
  | nil => intro s hs; simp [get_actuators_state] at hs
  | cons id rest ih =>
    intro s hs
    rcases hfb : fb (id % 256) with _ | f
    · rw [get_actuators_state] at hs
      rw [hfb] at hs
      exact ih s hs
    · rw [get_actuators_state] at hs
      rw [hfb] at hs
      rcases List.mem_cons.mp hs with rfl | hmem
      · rfl
      · exact ih s hmem

/-- A state entry with no position, as the runtime baseline code would
receive it if feedback lacked an angle. -/
def noPositionState : ActuatorState :=
  { actuator_id := 31, position := none, velocity := none,
    torque := none, temperature := none, online := false }

/-- Feedback oracle in which actuator 11 is offline and every other
actuator reports an angle of 1 rad. -/
def dropEleven : FeedbackOracle := fun id =>
  bif id == 11 then none
  else some { angle := 1, velocity := 0, torque := 0, temperature := 0, fresh := true }

/-- Claim C3 counterexample: the initial-baseline capture is not
default-free and does not produce one entry per joint.  The extraction
maps a state with no position to the default 0.0 (`unwrap_or(0.0)` in
runtime.rs), refuting the claimed equality with the read positions; and
with actuator 11 returning no feedback the baseline over the 20-joint
table has only 19 entries, so no baseline entry exists for that joint at
all. -/
theorem initial_baseline_counterexample :
    initialJointPositions [noPositionState] = [0] ∧
    noPositionState.position = none ∧
    ¬ ((initialJointPositions [noPositionState]).map some =
        [noPositionState].map (fun s => s.position)) ∧
    (ACTUATOR_NAME_TO_ID.map (fun p => p.2)).length = 20 ∧
    (initialBaseline dropEleven).length = 19 := by
  refine ⟨rfl, rfl, ?_, rfl, rfl⟩
  intro h
  simp [initialJointPositions, noPositionState] at h

/-- Claim C3 amended: the first-tick baseline is captured from a live
actuator snapshot, and every baseline entry equals a position read in
that snapshot — `get_actuators_state` always populates the position
field, so the 0.0 default of the extraction is never exercised on the
snapshots the runtime actually reads; however, a state with a missing
position would be defaulted to 0.0 and a joint without feedback is
dropped from the snapshot (and hence from the baseline) instead of
receiving an entry. -/
theorem initial_baseline_amended :
    (∀ states : List ActuatorState, (∀ s ∈ states, s.position.isSome) →
      (initialJointPositions states).map some = states.map (fun s => s.position)) ∧
    (∀ (fb : FeedbackOracle) (ids : List Nat) (s : ActuatorState),
      s ∈ get_actuators_state fb ids → s.position.isSome) ∧
    (∀ fb : FeedbackOracle,
      (initialBaseline fb).map some =
        (get_actuators_state fb (ACTUATOR_NAME_TO_ID.map (fun p => p.2))).map
          (fun s => s.position)) :=
  ⟨initialJointPositions_of_isSome, get_actuators_state_position_isSome,
   fun fb => initialJointPositions_of_isSome _
     (fun s hs => get_actuators_state_position_isSome fb _ s hs)⟩

/-- Feedback oracle in which every actuator reports the zero angle. -/
def fbConst : FeedbackOracle := fun _ =>
  some { angle := 0, velocity := 0, torque := 0, temperature := 0, fresh := true }

/-- Concrete check of `initial_baseline_amended`: a one-state snapshot
with a present position is carried into the baseline verbatim, the state
read for actuator 11 carries a position, and the full 20-joint baseline
equals the snapshot positions pointwise. -/
theorem initial_baseline_amended_witness :
    (initialJointPositions
        [{ actuator_id := 31, position := some 2, velocity := none,
           torque := none, temperature := none, online := true }]).map some =
      [({ actuator_id := 31, position := some 2, velocity := none,
          torque := none, temperature := none, online := true } : ActuatorState)].map
        (fun s => s.position) ∧
    (stateOfFeedback 11
      { angle := 0, velocity := 0, torque := 0, temperature := 0, fresh := true }).position.isSome ∧
    (initialBaseline fbConst).map some =
      (get_actuators_state fbConst (ACTUATOR_NAME_TO_ID.map (fun p => p.2))).map
        (fun s => s.position) :=
  ⟨initial_baseline_amended.1 _ (by decide),
   initial_baseline_amended.2.1 fbConst [11] _
     (by simp [get_actuators_state, fbConst]),
   initial_baseline_amended.2.2 fbConst⟩

/-- Helper: when some joint name is unmapped, both the id-resolution scan
and the command-building scan fail on the same first unmapped name, each
with its own message naming that joint. -/
theorem unmapped_first_error :
    ∀ (joint_names : List String) (action : List ℚ),
      joint_names.length = action.length →
      (∃ n ∈ joint_names, nameToId n = none) →
      ∃ bad ∈ joint_names, nameToId bad = none ∧
        get_actuator_ids joint_names = .error ("Joint name not found: " ++ bad) ∧
        buildCommands joint_names action =
          .error ("Joint name not found in ACTUATOR_NAME_TO_ID: " ++ bad) := by
  intro joint_names
  induction joint_names with
  | nil =>
    intro action _ hex
    rcases hex with ⟨n, hn, _⟩
    cases hn
  | cons name ns ih =>
    intro action hlen hex
    cases action with
    | nil => simp at hlen
    | cons a vs =>
      rcases hname : nameToId name with _ | id
      · exact ⟨name, List.mem_cons_self _ _, hname,
          by simp [get_actuator_ids, hname],
          by simp [buildCommands, hname]⟩
      · have hex2 : ∃ n ∈ ns, nameToId n = none := by
          rcases hex with ⟨n, hn, hnone⟩
          rcases List.mem_cons.mp hn with rfl | hmem
          · rw [hname] at hnone; cases hnone
          · exact ⟨n, hmem, hnone⟩
        have hlen2 : ns.length = vs.length := by simpa using hlen
        rcases ih vs hlen2 hex2 with ⟨bad, hmem, hbad, hga, hbc⟩
        exact ⟨bad, List.mem_cons_of_mem _ hmem, hbad,
          by simp [get_actuator_ids, hname, hga, Except.map],
          by simp [buildCommands, hname, hbc, Except.map]⟩

/-- Claim C4: a joint-name list containing a name absent from the static
table is a hard error: the id resolution used by get_inputs fails with an
error naming an unmapped joint (so no default id is ever used), the whole
get_inputs call returns that error, and take_action returns its own error
naming the joint while dispatching no command batch at all. -/
theorem unmapped_joint_name_hard_error :
    ∀ (joint_names : List String) (action : List ℚ) (dev : CommandDevice)
      (env : ProviderEnv) (input_types : List InputType) (nc : Option Nat),
      joint_names.length = action.length →
      (∃ n ∈ joint_names, nameToId n = none) →
      ∃ bad ∈ joint_names, nameToId bad = none ∧
        get_actuator_ids joint_names = .error ("Joint name not found: " ++ bad) ∧
        (getInputs env input_types
            { joint_names := joint_names, num_commands := nc }).1 =
          .error ("Joint name not found: " ++ bad) ∧
        take_action dev joint_names action =
          some (.error ("Joint name not found in ACTUATOR_NAME_TO_ID: " ++ bad), []) := by
  intro joint_names action dev env input_types nc hlen hex
  rcases unmapped_first_error joint_names action hlen hex with ⟨bad, hmem, hbad, hga, hbc⟩
  refine ⟨bad, hmem, hbad, hga, ?_, ?_⟩
  · simp [getInputs, hga]
  · simp [take_action, hlen, hbc]

/-- A test IMU sample with distinguishable components. -/
def imuTest : IMUData :=
  { accel_x := 1, accel_y := 2, accel_z := 3, gyro_x := 4, gyro_y := 5,
    gyro_z := 6, quat := { w := 1, x := 0, y := 0, z := 0 } }

/-- A provider context in which every actuator reports feedback. -/
def envTest : ProviderEnv :=
  { fb := fbConst, imu := imuTest, keyboard := kTest, elapsed := 9,
    initial_heading := 0, rotateVec := fun _ v _ => v }

/-- Concrete check of `unmapped_joint_name_hard_error`: with the unmapped
name bogus_joint after a mapped one, id resolution and get_inputs return
the resolution error naming it and take_action errors without any
dispatched batch. -/
theorem unmapped_joint_name_hard_error_witness :
    get_actuator_ids ["dof_left_knee_04", "bogus_joint"] =
      .error ("Joint name not found: " ++ "bogus_joint") ∧
    (getInputs envTest [InputType.JointAngles]
        { joint_names := ["dof_left_knee_04", "bogus_joint"], num_commands := none }).1 =
      .error ("Joint name not found: " ++ "bogus_joint") ∧
    take_action failOnTwo ["dof_left_knee_04", "bogus_joint"] [1, 2] =
      some (.error ("Joint name not found in ACTUATOR_NAME_TO_ID: " ++ "bogus_joint"), []) := by
  rcases unmapped_joint_name_hard_error ["dof_left_knee_04", "bogus_joint"] [1, 2]
      failOnTwo envTest [InputType.JointAngles] none rfl
      ⟨"bogus_joint", by decide, by decide⟩ with ⟨bad, hmem, hbad, hga, hgi, hta⟩
  have hb : bad = "bogus_joint" := by
    rcases List.mem_cons.mp hmem with rfl | hmem2
    · exact absurd hbad (by decide)
    · simpa using hmem2
  subst hb
  exact ⟨hga, hgi, hta⟩

/-- Whether an Except result is a success. -/
def resultIsOk {α : Type} : Except String α → Bool
  | .ok _ => true
  | .error _ => false

/-- Helper: the first state without a position makes the joint-angle
collection loop fail with the message naming that state and its joint. -/
theorem jointAnglesLoop_missing :
    ∀ (joint_names : List String) (states : List ActuatorState) (idx : ℕ),
      (∃ s ∈ states, s.position = none) →
      ∃ k, ∃ hk : k < states.length, (states.get ⟨k, hk⟩).position = none ∧
        jointAnglesLoop joint_names idx states =
          .error (positionErrorMsg (states.get ⟨k, hk⟩).actuator_id
            (jointNameForError joint_names (idx + k))) := by
  intro joint_names states
  induction states with
  | nil =>
    intro idx hex
    rcases hex with ⟨s, hs, _⟩
    cases hs
  | cons s rest ih =>
    intro idx hex
    rcases hp : s.position with _ | p
    · refine ⟨0, Nat.succ_pos _, by simpa using hp, ?_⟩
      simp [jointAnglesLoop, hp]
    · have hex2 : ∃ u ∈ rest, u.position = none := by
        rcases hex with ⟨u, hu, hnone⟩
        rcases List.mem_cons.mp hu with rfl | hmem
        · rw [hp] at hnone; cases hnone
        · exact ⟨u, hmem, hnone⟩
      rcases ih (idx + 1) hex2 with ⟨k, hk, hpos, heq⟩
      refine ⟨k + 1, Nat.succ_lt_succ hk, by simpa using hpos, ?_⟩
      have harith : idx + (k + 1) = (idx + 1) + k := by omega
      simp [jointAnglesLoop, hp, heq, Except.map, harith]

/-- Helper: a successful joint-angle collection returns exactly the
positions present in the states, with no substitution. -/
theorem jointAnglesLoop_ok :
    ∀ (joint_names : List String) (states : List ActuatorState) (idx : ℕ) (qs : List ℚ),
      jointAnglesLoop joint_names idx states = .ok qs →
      states.map (fun s => s.position) = qs.map some := by
  intro joint_names states
  induction states with
  | nil =>
    intro idx qs h
    simp only [jointAnglesLoop] at h
    cases h
    rfl
  | cons s rest ih =>
    intro idx qs h
    rcases hp : s.position with _ | p
    · simp [jointAnglesLoop, hp] at h
    · rcases hrest : jointAnglesLoop joint_names (idx + 1) rest with e | ps
      · simp [jointAnglesLoop, hp, hrest, Except.map] at h
      · simp only [jointAnglesLoop, hp, hrest, Except.map] at h
        cases h
        simp [hp, ih (idx + 1) ps hrest]

/-- Helper: the first state without a velocity makes the velocity
collection loop fail with the message naming that state and its joint. -/
theorem jointVelocitiesLoop_missing :
    ∀ (joint_names : List String) (states : List ActuatorState) (idx : ℕ),
      (∃ s ∈ states, s.velocity = none) →
      ∃ k, ∃ hk : k < states.length, (states.get ⟨k, hk⟩).velocity = none ∧
        jointVelocitiesLoop joint_names idx states =
          .error (velocityErrorMsg (states.get ⟨k, hk⟩).actuator_id
            (jointNameForError joint_names (idx + k))) := by
  intro joint_names states
  induction states with
  | nil =>
    intro idx hex
    rcases hex with ⟨s, hs, _⟩
    cases hs
  | cons s rest ih =>
    intro idx hex
    rcases hp : s.velocity with _ | v
    · refine ⟨0, Nat.succ_pos _, by simpa using hp, ?_⟩
      simp [jointVelocitiesLoop, hp]
    · have hex2 : ∃ u ∈ rest, u.velocity = none := by
        rcases hex with ⟨u, hu, hnone⟩
        rcases List.mem_cons.mp hu with rfl | hmem
        · rw [hp] at hnone; cases hnone
        · exact ⟨u, hmem, hnone⟩
      rcases ih (idx + 1) hex2 with ⟨k, hk, hvel, heq⟩
      refine ⟨k + 1, Nat.succ_lt_succ hk, by simpa using hvel, ?_⟩
      have harith : idx + (k + 1) = (idx + 1) + k := by omega
      simp [jointVelocitiesLoop, hp, heq, Except.map, harith]

/-- Helper: a successful velocity collection returns exactly the
velocities present in the states, with no substitution. -/
theorem jointVelocitiesLoop_ok :
    ∀ (joint_names : List String) (states : List ActuatorState) (idx : ℕ) (qs : List ℚ),
      jointVelocitiesLoop joint_names idx states = .ok qs →
      states.map (fun s => s.velocity) = qs.map some := by
  intro joint_names states
  induction states with
  | nil =>
    intro idx qs h
    simp only [jointVelocitiesLoop] at h
    cases h
    rfl
  | cons s rest ih =>
    intro idx qs h
    rcases hp : s.velocity with _ | v
    · simp [jointVelocitiesLoop, hp] at h
    · rcases hrest : jointVelocitiesLoop joint_names (idx + 1) rest with e | ps
      · simp [jointVelocitiesLoop, hp, hrest, Except.map] at h
      · simp only [jointVelocitiesLoop, hp, hrest, Except.map] at h
        cases h
        simp [hp, ih (idx + 1) ps hrest]

/-- Helper: a failing field among the requested types makes the whole
population loop fail. -/
theorem populateLoop_not_ok :
    ∀ (f : InputType → Except String (List ℚ)) (ts : List InputType)
      (t : InputType) (e : String), t ∈ ts → f t = .error e →
      resultIsOk (populateLoop f ts) = false := by
  intro f ts
  induction ts with
  | nil =>
    intro t e ht
    cases ht
  | cons t0 rest ih =>
    intro t e ht hf
    rcases List.mem_cons.mp ht with rfl | hmem
    · simp [populateLoop, hf, resultIsOk]
    · rcases h0 : f t0 with e0 | v0
      · simp [populateLoop, h0, resultIsOk]
      · rcases hrest : populateLoop f rest with er | out
        · simp [populateLoop, h0, hrest, Except.map, resultIsOk]
        · have hbad := ih t e hmem hf
          rw [hrest] at hbad
          simp [resultIsOk] at hbad

/-- Claim C6: an unavailable datum fails the whole snapshot rather than
being silently zeroed: a state with a missing position or velocity makes
the corresponding derivation fail with a per-field error naming the
joint id and joint name; on success the derived vectors are exactly the
read values with no substitution; and any failing requested field makes
the whole get_inputs call fail. -/
theorem missing_datum_fails_snapshot :
    (∀ (joint_names : List String) (states : List ActuatorState),
      (∃ s ∈ states, s.position = none) →
      ∃ k, ∃ hk : k < states.length, (states.get ⟨k, hk⟩).position = none ∧
        get_joint_angles_from_state joint_names states =
          .error (positionErrorMsg (states.get ⟨k, hk⟩).actuator_id
            (jointNameForError joint_names k))) ∧
    (∀ (joint_names : List String) (states : List ActuatorState) (qs : List ℚ),
      get_joint_angles_from_state joint_names states = .ok qs →
      states.map (fun s => s.position) = qs.map some) ∧
    (∀ (joint_names : List String) (states : List ActuatorState),
      (∃ s ∈ states, s.velocity = none) →
      ∃ k, ∃ hk : k < states.length, (states.get ⟨k, hk⟩).velocity = none ∧
        get_joint_angular_velocities_from_state joint_names states =
          .error (velocityErrorMsg (states.get ⟨k, hk⟩).actuator_id
            (jointNameForError joint_names k))) ∧
    (∀ (joint_names : List String) (states : List ActuatorState) (qs : List ℚ),
      get_joint_angular_velocities_from_state joint_names states = .ok qs →
      states.map (fun s => s.velocity) = qs.map some) ∧
    (∀ (env : ProviderEnv) (input_types : List InputType) (meta : ModelMetadata)
      (ids : List Nat) (t : InputType) (e : String),
      get_actuator_ids meta.joint_names = .ok ids → t ∈ input_types →
      getInputOne env meta (get_actuators_state env.fb ids) t = .error e →
      resultIsOk (getInputs env input_types meta).1 = false) := by
  refine ⟨?_, ?_, ?_, ?_, ?_⟩
  · intro joint_names states hex
    rcases jointAnglesLoop_missing joint_names states 0 hex with ⟨k, hk, hpos, heq⟩
    refine ⟨k, hk, hpos, ?_⟩
    rw [Nat.zero_add] at heq
    simp [get_joint_angles_from_state, heq]
  · intro joint_names states qs h
    rcases hloop : jointAnglesLoop joint_names 0 states with e | angles
    · simp [get_joint_angles_from_state, hloop] at h
    · have := jointAnglesLoop_ok joint_names states 0 angles hloop
      simp only [get_joint_angles_from_state, hloop] at h
      split at h
      · cases h; exact this
      · cases h
  · intro joint_names states hex
    rcases jointVelocitiesLoop_missing joint_names states 0 hex with ⟨k, hk, hvel, heq⟩
    refine ⟨k, hk, hvel, ?_⟩
    rw [Nat.zero_add] at heq
    simp [get_joint_angular_velocities_from_state, heq]
  · intro joint_names states qs h
    rcases hloop : jointVelocitiesLoop joint_names 0 states with e | vels
    · simp [get_joint_angular_velocities_from_state, hloop] at h
    · have := jointVelocitiesLoop_ok joint_names states 0 vels hloop
      simp only [get_joint_angular_velocities_from_state, hloop] at h
      split at h
      · cases h; exact this
      · cases h
  · intro env input_types meta ids t e hga ht hf
    simp only [getInputs, hga]
    exact populateLoop_not_ok _ input_types t e ht hf

/-- A provider context in which actuator 34 returns no feedback. -/
def envDrop : ProviderEnv :=
  { fb := fun id => bif id == 34 then none
      else some { angle := 0, velocity := 0, torque := 0, temperature := 0, fresh := true },
    imu := imuTest, keyboard := kTest, elapsed := 0, initial_heading := 0,
    rotateVec := fun _ v _ => v }

/-- Concrete check of `missing_datum_fails_snapshot`: a missing position
or velocity produces the per-field error naming joint 31, successful
derivations echo the read values, and a snapshot in which actuator 34
returned no feedback makes the whole get_inputs call fail. -/
theorem missing_datum_fails_snapshot_witness :
    get_joint_angles_from_state ["dof_left_hip_pitch_04"] [noPositionState] =
      .error (positionErrorMsg 31 "dof_left_hip_pitch_04") ∧
    ([({ actuator_id := 31, position := some 2, velocity := some 3, torque := none,
         temperature := none, online := true } : ActuatorState)].map
      (fun s => s.position) = [(2 : ℚ)].map some) ∧
    get_joint_angular_velocities_from_state ["dof_left_hip_pitch_04"] [noPositionState] =
      .error (velocityErrorMsg 31 "dof_left_hip_pitch_04") ∧
    ([({ actuator_id := 31, position := some 2, velocity := some 3, torque := none,
         temperature := none, online := true } : ActuatorState)].map
      (fun s => s.velocity) = [(3 : ℚ)].map some) ∧
    resultIsOk (getInputs envDrop [InputType.JointAngles]
      { joint_names := ["dof_left_knee_04", "dof_left_ankle_02"],
        num_commands := none }).1 = false := by
  refine ⟨?_, ?_, ?_, ?_, ?_⟩
  · rcases missing_datum_fails_snapshot.1 ["dof_left_hip_pitch_04"] [noPositionState]
        ⟨noPositionState, by simp, rfl⟩ with ⟨k, hk, _, heq⟩
    have hk0 : k = 0 := by simp at hk; omega
    subst hk0
    simpa [noPositionState, jointNameForError] using heq
  · exact missing_datum_fails_snapshot.2.1 ["x"]
      [{ actuator_id := 31, position := some 2, velocity := some 3, torque := none,
         temperature := none, online := true }] [2] rfl
  · rcases missing_datum_fails_snapshot.2.2.1 ["dof_left_hip_pitch_04"] [noPositionState]
        ⟨noPositionState, by simp, rfl⟩ with ⟨k, hk, _, heq⟩
    have hk0 : k = 0 := by simp at hk; omega
    subst hk0
    simpa [noPositionState, jointNameForError] using heq
  · exact missing_datum_fails_snapshot.2.2.2.1 ["x"]
      [{ actuator_id := 31, position := some 2, velocity := some 3, torque := none,
         temperature := none, online := true }] [3] rfl
  · exact missing_datum_fails_snapshot.2.2.2.2 envDrop [InputType.JointAngles]
      { joint_names := ["dof_left_knee_04", "dof_left_ankle_02"], num_commands := none }
      [34, 35] InputType.JointAngles
      "Array shape error: joint count does not match joint name count"
      rfl (by simp) rfl

/-- Claim C7: whenever joint-name resolution succeeds, one get_inputs
call reads the actuator-state batch exactly once and the IMU exactly
once, however many input fields are requested; every populated field is
then derived from that single snapshot pair (together with
process-local values: elapsed time, the captured initial heading and
the keyboard atomics).  The concurrent issue-and-join of the two reads
is a scheduling fact outside the embedding; what is verified is the
one-read-each trace. -/
theorem get_inputs_single_read_pair :
    ∀ (env : ProviderEnv) (input_types : List InputType) (meta : ModelMetadata)
      (ids : List Nat), get_actuator_ids meta.joint_names = .ok ids →
      (getInputs env input_types meta).2 = [Event.actuatorRead ids, Event.imuRead] ∧
      (getInputs env input_types meta).2.countP Event.isActuatorRead = 1 ∧
      (getInputs env input_types meta).2.countP Event.isImuRead = 1 := by
  intro env input_types meta ids h
  have h2 : (getInputs env input_types meta).2 =
      [Event.actuatorRead ids, Event.imuRead] := by
    simp [getInputs, h]
  refine ⟨h2, ?_, ?_⟩ <;> rw [h2] <;> rfl

/-- Concrete check of `get_inputs_single_read_pair`: a three-field
request over one joint produces exactly one actuator read of id 34 and
one IMU read. -/
theorem get_inputs_single_read_pair_witness :
    (getInputs envTest [InputType.JointAngles, InputType.Gyroscope, InputType.Time]
        { joint_names := ["dof_left_knee_04"], num_commands := none }).2 =
      [Event.actuatorRead [34], Event.imuRead] ∧
    (getInputs envTest [InputType.JointAngles, InputType.Gyroscope, InputType.Time]
        { joint_names := ["dof_left_knee_04"], num_commands := none }).2.countP
      Event.isActuatorRead = 1 ∧
    (getInputs envTest [InputType.JointAngles, InputType.Gyroscope, InputType.Time]
        { joint_names := ["dof_left_knee_04"], num_commands := none }).2.countP
      Event.isImuRead = 1 :=
  get_inputs_single_read_pair envTest
    [InputType.JointAngles, InputType.Gyroscope, InputType.Time]
    { joint_names := ["dof_left_knee_04"], num_commands := none } [34] rfl

end KBot
